import Mathlib

/-
Shallow embedding of the cache-aside core of the prod-ecom-backend
repository (Express + Drizzle + Redis e-commerce backend).

The embedding covers:
  * JavaScript value/number semantics needed by the handlers
    (NaN propagation, `undefined`, truthiness, `parseInt`/`parseFloat`,
    template-literal number rendering, JSON field access and the
    `JSON.stringify`/`JSON.parse` round trip);
  * the Redis collaborator as pure state (key/value entries with TTLs,
    and hash-map entries for carts);
  * the persistent store as lists of rows, with Drizzle `eq`/`and`
    filters modelled as Boolean predicates on rows;
  * the product controller (src/controller/Product.c.ts) and the cart
    controller (CartCtrl: addCartItem, retrieveCartItems, updateCartItem,
    removeCartItem, clearCart, mergeCarts).

Modelling conventions:
  * JS numbers are exact rationals extended with NaN/±Infinity
    (the handlers only do +,-,*,/ and comparisons on small decimals);
  * a Postgres `decimal` column value is represented by its numeric
    value (the `toString`/`parseFloat` boundary is the identity on
    finite numbers and maps NaN to NaN);
  * a JS `Date` is `Option Int` (epoch milliseconds; `none` is an
    Invalid Date, the result of `new Date(undefined)`); a date-valued
    request-body field is carried as an already-parsed `Option Int`;
  * `JSON.stringify` followed by `JSON.parse` is `jsonNormalize`
    (drops `undefined`-valued object fields, maps NaN/Infinity to null).
-/

namespace Ecom

/-- JavaScript numbers: exact rationals plus NaN and the two infinities. -/
inductive JsNum where
  | num (q : ℚ)
  | nan
  | inf
  | ninf
deriving DecidableEq

namespace JsNum

/-- JS `+` on numbers. -/
def add : JsNum → JsNum → JsNum
  | num a, num b => num (a + b)
  | num _, inf => inf
  | num _, ninf => ninf
  | inf, num _ => inf
  | ninf, num _ => ninf
  | inf, inf => inf
  | ninf, ninf => ninf
  | inf, ninf => nan
  | ninf, inf => nan
  | _, _ => nan

/-- JS unary minus on numbers. -/
def neg : JsNum → JsNum
  | num a => num (-a)
  | inf => ninf
  | ninf => inf
  | nan => nan

/-- JS `-` on numbers. -/
def sub (a b : JsNum) : JsNum := add a (neg b)

/-- JS `*` on numbers. -/
def mul : JsNum → JsNum → JsNum
  | num a, num b => num (a * b)
  | num a, inf => if a > 0 then inf else if a < 0 then ninf else nan
  | num a, ninf => if a > 0 then ninf else if a < 0 then inf else nan
  | inf, num b => if b > 0 then inf else if b < 0 then ninf else nan
  | ninf, num b => if b > 0 then ninf else if b < 0 then inf else nan
  | inf, inf => inf
  | ninf, ninf => inf
  | inf, ninf => ninf
  | ninf, inf => ninf
  | _, _ => nan

/-- JS `/` on numbers. -/
def div : JsNum → JsNum → JsNum
  | num a, num b =>
      if b = 0 then (if a = 0 then nan else if a > 0 then inf else ninf)
      else num (a / b)
  | num _, inf => num 0
  | num _, ninf => num 0
  | inf, num b => if b ≥ 0 then inf else ninf
  | ninf, num b => if b ≥ 0 then ninf else inf
  | _, _ => nan

/-- JS `<` on numbers (false whenever NaN is involved). -/
def ltb : JsNum → JsNum → Bool
  | num a, num b => a < b
  | num _, inf => true
  | ninf, num _ => true
  | ninf, inf => true
  | _, _ => false

/-- JS `<=` on numbers (false whenever NaN is involved). -/
def leb : JsNum → JsNum → Bool
  | num a, num b => a ≤ b
  | num _, inf => true
  | ninf, num _ => true
  | ninf, inf => true
  | inf, inf => true
  | ninf, ninf => true
  | _, _ => false

/-- JS strict equality `===` on numbers (NaN is not equal to itself). -/
def eqb : JsNum → JsNum → Bool
  | num a, num b => a = b
  | inf, inf => true
  | ninf, ninf => true
  | _, _ => false

/-- JS number truthiness: 0 and NaN are falsy. -/
def truthy : JsNum → Bool
  | num a => a ≠ 0
  | nan => false
  | _ => true

end JsNum

/-- JavaScript values as they flow through the handlers: `undefined`,
`null`, booleans, numbers, strings, JSON objects and arrays. -/
inductive JVal where
  | jundefined
  | jnull
  | jbool (b : Bool)
  | jnum (n : JsNum)
  | jstr (s : String)
  | jobj (fields : List (String × JVal))
  | jarr (elems : List JVal)

/-- Property access `v.f`: looks the field up in an object, `undefined`
otherwise (mirrors JS member access on parsed JSON data). -/
def getField : JVal → String → JVal
  | .jobj fields, f =>
      match fields.find? (fun p => p.1 = f) with
      | some p => p.2
      | none => .jundefined
  | _, _ => .jundefined

/-- Sets (or adds) one field of an object, keeping field order for
existing fields, appending new ones: the effect of a spread
`\x7b ...obj, f: v \x7d` per updated field. -/
def setField : JVal → String → JVal → JVal
  | .jobj fields, f, v =>
      if (fields.find? (fun p => p.1 = f)).isSome then
        .jobj (fields.map (fun p => if p.1 = f then (p.1, v) else p))
      else .jobj (fields ++ [(f, v)])
  | w, _, _ => w

/-- JS truthiness of a value. -/
def truthy : JVal → Bool
  | .jundefined => false
  | .jnull => false
  | .jbool b => b
  | .jnum n => n.truthy
  | .jstr s => s ≠ ""
  | .jobj _ => true
  | .jarr _ => true

/-- JS `ToNumber` coercion for the value shapes the handlers meet. -/
def toNumber : JVal → JsNum
  | .jundefined => .nan
  | .jnull => .num 0
  | .jbool b => .num (if b then 1 else 0)
  | .jnum n => n
  | .jstr _ => .nan
  | .jobj _ => .nan
  | .jarr _ => .nan

/-- JS `+` on values as used on parsed JSON numbers (numeric addition;
the handlers never add strings here). -/
def jvAdd (a b : JVal) : JVal := .jnum (JsNum.add (toNumber a) (toNumber b))

/-- JS `*` on values: both sides are coerced to numbers
(`undefined * n` is NaN). -/
def jvMul (a b : JVal) : JVal := .jnum (JsNum.mul (toNumber a) (toNumber b))

/-- JS `/` on values. -/
def jvDiv (a b : JVal) : JVal := .jnum (JsNum.div (toNumber a) (toNumber b))

/-- JS `a || b`. -/
def jvOr (a b : JVal) : JVal := if truthy a then a else b

/-- JS `a < b` for the number-or-undefined comparisons in the pagination
logic (`page < totalPages`): both sides coerce to numbers, NaN makes the
comparison false. -/
def jvLtb (a b : JVal) : Bool := JsNum.ltb (toNumber a) (toNumber b)

mutual

/-- Effect of `JSON.stringify` then `JSON.parse` on an object field list:
`undefined`-valued fields are dropped, NaN and the infinities become
null. This is the value a later reader sees after a round trip through
the cache. -/
def jsonNormalizeFields : List (String × JVal) → List (String × JVal)
  | [] => []
  | (f, v) :: rest =>
      match v with
      | .jundefined => jsonNormalizeFields rest
      | _ => (f, jsonNormalize v) :: jsonNormalizeFields rest

/-- Effect of `JSON.stringify` then `JSON.parse` on array elements
(`undefined` elements become null). -/
def jsonNormalizeElems : List JVal → List JVal
  | [] => []
  | v :: rest =>
      (match v with
       | .jundefined => .jnull
       | _ => jsonNormalize v) :: jsonNormalizeElems rest

/-- Effect of `JSON.stringify` then `JSON.parse` on a value. -/
def jsonNormalize : JVal → JVal
  | .jundefined => .jundefined
  | .jnull => .jnull
  | .jbool b => .jbool b
  | .jnum (.num q) => .jnum (.num q)
  | .jnum _ => .jnull
  | .jstr s => .jstr s
  | .jobj fields => .jobj (jsonNormalizeFields fields)
  | .jarr elems => .jarr (jsonNormalizeElems elems)

end

/-- ASCII whitespace skipped by `parseInt`/`parseFloat`. -/
def isWsChar (c : Char) : Bool := c = ' ' ∨ c = '\t' ∨ c = '\n' ∨ c = '\r'

/-- Decimal digit test. -/
def isDigitChar (c : Char) : Bool := '0' ≤ c ∧ c ≤ '9'

/-- Hexadecimal digit test. -/
def isHexDigitChar (c : Char) : Bool :=
  isDigitChar c ∨ ('a' ≤ c ∧ c ≤ 'f') ∨ ('A' ≤ c ∧ c ≤ 'F')

/-- Value of one hexadecimal digit. -/
def hexDigitVal (c : Char) : Nat :=
  if isDigitChar c then c.toNat - 48
  else if 'a' ≤ c ∧ c ≤ 'f' then c.toNat - 87
  else c.toNat - 55

/-- Numeric value of a decimal digit string. -/
def natOfDigits (l : List Char) : Nat :=
  l.foldl (fun a c => a * 10 + (c.toNat - 48)) 0

/-- Numeric value of a hexadecimal digit string. -/
def natOfHexDigits (l : List Char) : Nat :=
  l.foldl (fun a c => a * 16 + hexDigitVal c) 0

/-- JS `parseInt(s)` with no radix argument: skip whitespace, optional
sign, `0x`/`0X` switches to hexadecimal, then the maximal digit run;
NaN (`none`) when no digit is found. -/
def parseIntJs (s : String) : Option Int :=
  let cs := s.data.dropWhile isWsChar
  let signed : Bool × List Char :=
    match cs with
    | '-' :: r => (true, r)
    | '+' :: r => (false, r)
    | r => (false, r)
  let neg := signed.1
  let body := signed.2
  let mag : Option Nat :=
    match body with
    | '0' :: x :: r =>
        if x = 'x' ∨ x = 'X' then
          let ds := r.takeWhile isHexDigitChar
          if ds = [] then none else some (natOfHexDigits ds)
        else
          let ds := body.takeWhile isDigitChar
          if ds = [] then none else some (natOfDigits ds)
    | _ =>
        let ds := body.takeWhile isDigitChar
        if ds = [] then none else some (natOfDigits ds)
  mag.map (fun m => if neg then -(m : Int) else (m : Int))

/-- JS `parseFloat(s)`: skip whitespace, optional sign, `Infinity`, or
decimal digits with an optional fraction; NaN when no digit is found.
(The handlers never feed it exponent notation.) -/
def parseFloatStr (s : String) : JsNum :=
  let cs := s.data.dropWhile isWsChar
  let signed : Bool × List Char :=
    match cs with
    | '-' :: r => (true, r)
    | '+' :: r => (false, r)
    | r => (false, r)
  let neg := signed.1
  let body := signed.2
  if body.take 8 = "Infinity".data then
    (if neg then .ninf else .inf)
  else
    let ip := body.takeWhile isDigitChar
    let rest := body.drop ip.length
    let fp :=
      match rest with
      | '.' :: r => r.takeWhile isDigitChar
      | _ => []
    if ip = [] ∧ fp = [] then .nan
    else
      let mag : ℚ := (natOfDigits ip : ℚ) + (natOfDigits fp : ℚ) / ((10 : ℚ) ^ fp.length)
      .num (if neg then -mag else mag)

/-- JS `parseFloat(v)` on a value: the argument is converted to a string
first, so finite numbers round-trip, NaN/undefined/null parse to NaN. -/
def parseFloatVal : JVal → JsNum
  | .jnum (.num q) => .num q
  | .jnum .inf => .inf
  | .jnum .ninf => .ninf
  | .jstr s => parseFloatStr s
  | _ => .nan

/-- Truncation toward zero (JS `parseInt` applied to a finite number). -/
def ratTruncInt (q : ℚ) : Int := if q ≥ 0 then ⌊q⌋ else -⌊-q⌋

/-- JS `parseInt(v)` on a value (converted to a string first). -/
def parseIntVal : JVal → Option Int
  | .jnum (.num q) => some (ratTruncInt q)
  | .jstr s => parseIntJs s
  | _ => none

/-- JS `Number(v)` for an optional string query parameter:
`Number(undefined)` is NaN, `Number("")` is 0, otherwise the full string
must be numeric. -/
def jsNumberOfQuery : Option String → JsNum
  | none => .nan
  | some s =>
      let cs := s.data.dropWhile isWsChar
      if cs = [] then .num 0
      else
        let signed : Bool × List Char :=
          match cs with
          | '-' :: r => (true, r)
          | '+' :: r => (false, r)
          | r => (false, r)
        let ip := signed.2.takeWhile isDigitChar
        if ip ≠ [] ∧ signed.2.drop ip.length = [] then
          .num (if signed.1 then -(natOfDigits ip : ℚ) else (natOfDigits ip : ℚ))
        else .nan

/-- Decimal digit character of a value below ten. -/
def digitChar (n : Nat) : Char := Char.ofNat (48 + n)

/-- Fuel-driven decimal rendering of a natural number (most significant
digit first). -/
def natToChars : Nat → Nat → List Char
  | 0, _ => []
  | fuel + 1, n =>
      if n < 10 then [digitChar n]
      else natToChars fuel (n / 10) ++ [digitChar (n % 10)]

/-- Decimal string of a natural number, as JS template-literal
interpolation renders it. -/
def natToStr (n : Nat) : String := ⟨natToChars (n + 1) n⟩

/-- Decimal string of an integer, as JS template-literal interpolation
renders it. -/
def intToStr (i : Int) : String :=
  if i < 0 then "-" ++ natToStr i.natAbs else natToStr i.natAbs

end Ecom

namespace Ecom

/-- Handler outcome as the caller observes it (status code class plus
JSON body). `okJ` carries the object passed to `res.json`. -/
inductive HResp where
  | okJ (v : JVal)
  | badRequest (msg : String)
  | notFound (msg : String)
  | serverError (msg : String)

/-- Replace-or-append update of an association list (the effect of a
Redis SET / HSET on one key or field: replace the entry when the key is
present, append it otherwise). -/
def setAssoc {α : Type} : List (String × α) → String → α → List (String × α)
  | [], k, v => [(k, v)]
  | p :: rest, k, v => if p.1 = k then (k, v) :: rest else p :: setAssoc rest k v

/-- Key/value half of the Redis state (single-product and listing
entries), with per-key TTLs in seconds. Values are kept in parsed form;
writing stores the `JSON.stringify`/`JSON.parse` normalization of the
written object. -/
structure KvCache where
  entries : List (String × JVal)
  ttls : List (String × Int)

/-- Redis GET. -/
def kvGet (c : KvCache) (k : String) : Option JVal :=
  (c.entries.find? (fun p => p.1 = k)).map (fun p => p.2)

/-- Redis SET with EX / SETEX: store the serialization round trip of the
value together with its TTL. -/
def kvSetEx (c : KvCache) (k : String) (ttl : Int) (v : JVal) : KvCache :=
  { entries := setAssoc c.entries k (jsonNormalize v)
    ttls := setAssoc c.ttls k ttl }

/-- Redis DEL of a single key. -/
def kvDel (c : KvCache) (k : String) : KvCache :=
  { entries := c.entries.filter (fun p => p.1 ≠ k)
    ttls := c.ttls.filter (fun p => p.1 ≠ k) }

/-- The product table as (id, row) pairs; a row is the JSON shape the
store returns for it. -/
abbrev ProductDb := List (Int × JVal)

/-- Single-product cache key `product:<id>` (PRODUCT_CACHE_PREFIX). -/
def productCacheKey (pid : Int) : String := "product:" ++ intToStr pid

/-- Parsed query parameters of a listing request; `none` is an absent
parameter. -/
structure ProductsQuery where
  page : Option String
  limit : Option String
  sortBy : Option String
  sortOrder : Option String
  category : Option String

/-- JS `parseInt(req.query.x as string)`: parsing an absent parameter gives
NaN. -/
def parseIntOptStr : Option String → Option Int
  | none => none
  | some s => parseIntJs s

/-- Effective page: `parseInt(req.query.page as string) || DEFAULT_PAGE`
(NaN and 0 fall back to 1; any other parsed value, including negatives,
is used as is). -/
def effPage (p : Option String) : Int :=
  match parseIntOptStr p with
  | none => 1
  | some v => if v = 0 then 1 else v

/-- Effective limit:
`Math.min(parseInt(req.query.limit as string) || DEFAULT_LIMIT, MAX_LIMIT)`. -/
def effLimit (l : Option String) : Int :=
  min (match parseIntOptStr l with
       | none => 10
       | some v => if v = 0 then 10 else v) 100

/-- Effective sortBy string: `(req.query.sortBy as string) || "createdAt"`. -/
def effSortBy (s : Option String) : String :=
  match s with
  | none => "createdAt"
  | some v => if v = "" then "createdAt" else v

/-- The check `(req.query.sortOrder as string) === "desc"` selects descending. -/
def isDescOrder (s : Option String) : Bool := s = some "desc"

/-- Effective category: the filter and the key segment are only used
when the raw value is truthy. -/
def effCategory (c : Option String) : Option String :=
  match c with
  | none => none
  | some v => if v = "" then none else some v

/-- The sortable columns of the products table. -/
inductive SortColumn where
  | id
  | name
  | price
  | category
  | createdAt
deriving DecidableEq

/-- The `validSortColumns` whitelist map of the controller. -/
def validSortColumns : List (String × SortColumn) :=
  [("id", .id), ("name", .name), ("price", .price),
   ("category", .category), ("createdAt", .createdAt)]

/-- Lookup `validSortColumns[sortBy] || productTable.created_at`. -/
def sortColumnOf (sortBy : String) : SortColumn :=
  match validSortColumns.find? (fun p => p.1 = sortBy) with
  | some p => p.2
  | none => .createdAt

/-- The listing cache key template of getProducts:
`products:page:P:limit:L:sortBy:S:sortOrder:O` with `:category:C`
appended when a category is present. `soStr` is the string the template
literal interpolates for the drizzle sort-order function. -/
def productsCacheKey (page limit : Int) (sortBy soStr : String)
    (category : Option String) : String :=
  "products:page:" ++ intToStr page ++ ":limit:" ++ intToStr limit ++
    ":sortBy:" ++ sortBy ++ ":sortOrder:" ++ soStr ++
    (match category with
     | some c => ":category:" ++ c
     | none => "")

/-- String interpolated for the sort-order function: the source of
drizzle's `asc` or `desc` depending on the `=== "desc"` check. -/
def sortOrderStr (ascStr descStr : String) (sortOrder : Option String) : String :=
  if isDescOrder sortOrder then descStr else ascStr

/-- JS `Math.ceil(totalCount / limit)` (the handlers never reach this with
limit = 0). -/
def totalPagesOf (count limit : Int) : Int :=
  ⌈((count : ℚ) / (limit : ℚ))⌉

/-- Result of the getProducts handler: the response, the cache after
the call, and what (if anything) was asked of the persistent store. -/
structure GetProductsOut where
  resp : HResp
  cache : KvCache
  dbAccessed : Bool
  dbOffset : Option Int
  dbLimit : Option Int
  dbSortColumn : Option SortColumn
  dbSortDesc : Option Bool
  dbCategoryFilter : Option (Option String)

/-- The pagination object assembled on the cache-miss path (also the
shape cached inside `responseData`). -/
def missPagination (page limit totalCount totalPages : Int) : JVal :=
  .jobj [("page", .jnum (.num page)), ("limit", .jnum (.num limit)),
         ("totalCount", .jnum (.num totalCount)),
         ("totalPages", .jnum (.num totalPages)),
         ("hasNext", .jbool (decide (page < totalPages))),
         ("hasPrev", .jbool (decide (page > 1)))]

/-- ProductCtrl.getProducts (src/controller/Product.c.ts). The
collaborator results are parameters: `dbCount` is what the count query
returns under the category filter and `dbProducts` the rows of the
paginated query. `cacheGetThrows`/`cacheSetThrows` make the
corresponding Redis call fail (both are individually wrapped in
try/catch in this handler). -/
def getProducts (q : ProductsQuery) (ascStr descStr : String)
    (cache : KvCache) (cacheGetThrows cacheSetThrows : Bool)
    (dbCount : Int) (dbProducts : List JVal) : GetProductsOut :=
  let page := effPage q.page
  let limit := effLimit q.limit
  let sortBy := effSortBy q.sortBy
  let cat := effCategory q.category
  let offset := (page - 1) * limit
  let cacheKey := productsCacheKey page limit sortBy
    (sortOrderStr ascStr descStr q.sortOrder) cat
  let hit : Option JVal := if cacheGetThrows then none else kvGet cache cacheKey
  match hit with
  | some cachedData =>
      -- const \x7b products, totalCount, totalPages \x7d = JSON.parse(cachedData)
      let products := getField cachedData "products"
      let totalCount := getField cachedData "totalCount"
      let totalPages := getField cachedData "totalPages"
      { resp := .okJ (jsonNormalize (.jobj
          [("products", products),
           ("pagination", .jobj
             [("page", .jnum (.num page)), ("limit", .jnum (.num limit)),
              ("totalCount", totalCount), ("totalPages", totalPages),
              ("hasNext", .jbool (jvLtb (.jnum (.num page)) totalPages)),
              ("hasPrev", .jbool (decide (page > 1)))])]))
        cache := cache
        dbAccessed := false
        dbOffset := none, dbLimit := none, dbSortColumn := none
        dbSortDesc := none, dbCategoryFilter := none }
  | none =>
      let totalCount := dbCount
      let totalPages := totalPagesOf totalCount limit
      let responseData : JVal := .jobj
        [("products", .jarr dbProducts),
         ("pagination", missPagination page limit totalCount totalPages)]
      let cache2 :=
        if cacheSetThrows then cache
        else kvSetEx cache cacheKey 300 responseData
      { resp := .okJ (jsonNormalize responseData)
        cache := cache2
        dbAccessed := true
        dbOffset := some offset
        dbLimit := some limit
        dbSortColumn := some (sortColumnOf sortBy)
        dbSortDesc := some (isDescOrder q.sortOrder)
        dbCategoryFilter := some cat }

/-- Result of getProductById: the response, the cache afterwards, and
whether the cache / persistent store were touched at all. -/
structure GetByIdOut where
  resp : HResp
  cache : KvCache
  cacheAccessed : Bool
  dbAccessed : Bool

/-- ProductCtrl.getProductById (src/controller/Product.c.ts). The Redis
get and setEx of this handler are NOT individually wrapped: a throwing
cache call lands in the handler's outer catch, which answers 500
"Error fetching product". -/
def getProductById (idStr : String) (cache : KvCache)
    (cacheGetThrows cacheSetThrows : Bool) (db : ProductDb) : GetByIdOut :=
  match parseIntJs idStr with
  | none =>
      { resp := .badRequest "Invalid product ID", cache := cache
        cacheAccessed := false, dbAccessed := false }
  | some pid =>
      if cacheGetThrows then
        { resp := .serverError "Error fetching product", cache := cache
          cacheAccessed := true, dbAccessed := false }
      else
        match kvGet cache (productCacheKey pid) with
        | some cached =>
            { resp := .okJ cached, cache := cache
              cacheAccessed := true, dbAccessed := false }
        | none =>
            match db.find? (fun p => p.1 = pid) with
            | none =>
                { resp := .notFound "Product not found", cache := cache
                  cacheAccessed := true, dbAccessed := true }
            | some row =>
                if cacheSetThrows then
                  { resp := .serverError "Error fetching product", cache := cache
                    cacheAccessed := true, dbAccessed := true }
                else
                  { resp := .okJ row.2
                    cache := kvSetEx cache (productCacheKey pid) 3600 row.2
                    cacheAccessed := true, dbAccessed := true }

/-- The update payload of updateProduct. Absent body fields are
`undefined`. -/
structure UpdateBody where
  name : JVal
  description : JVal
  price : JVal
  category : JVal
  inStock : JVal

/-- The check `value !== undefined && value !== null`. -/
def isProvided : JVal → Bool
  | .jundefined => false
  | .jnull => false
  | _ => true

/-- The check `value !== undefined`. -/
def isDef : JVal → Bool
  | .jundefined => false
  | _ => true

/-- The dynamic `updateData` object applied to a stored row: only
supplied fields are written; price is coerced with parseFloat, inStock
with Boolean(...). -/
def applyUpdate (b : UpdateBody) (row : JVal) : JVal :=
  let r1 := if isDef b.name then setField row "name" b.name else row
  let r2 := if isDef b.description then setField r1 "description" b.description else r1
  let r3 := if isDef b.price then setField r2 "price" (.jnum (parseFloatVal b.price)) else r2
  let r4 := if isDef b.category then setField r3 "category" b.category else r3
  if isDef b.inStock then setField r4 "inStock" (.jbool (truthy b.inStock)) else r4

/-- Result of updateProduct / deleteProduct: response, cache and
product table afterwards, and whether the store was reached. -/
structure WriteOut where
  resp : HResp
  cache : KvCache
  db : ProductDb
  dbAccessed : Bool

/-- ProductCtrl.updateProduct (src/controller/Product.c.ts). On a
successful update the ONLY cache invalidation performed is
`redisClient.del("product:" + id)`; no listing key is touched. -/
def updateProduct (idStr : String) (b : UpdateBody) (cache : KvCache)
    (db : ProductDb) : WriteOut :=
  match parseIntJs idStr with
  | none =>
      { resp := .badRequest "Invalid product ID", cache := cache, db := db
        dbAccessed := false }
  | some pid =>
      if ¬ (isProvided b.name ∨ isProvided b.description ∨ isProvided b.price ∨
            isProvided b.category ∨ isProvided b.inStock) then
        { resp := .badRequest "No valid fields provided for update"
          cache := cache, db := db, dbAccessed := false }
      else if isDef b.price ∧
          (parseFloatVal b.price = .nan ∨ JsNum.ltb (parseFloatVal b.price) (.num 0)) then
        { resp := .badRequest "Price must be a valid non-negative number"
          cache := cache, db := db, dbAccessed := false }
      else
        match db.find? (fun p => p.1 = pid) with
        | none =>
            { resp := .notFound "Product not found", cache := cache, db := db
              dbAccessed := true }
        | some row =>
            { resp := .okJ (applyUpdate b row.2)
              cache := kvDel cache (productCacheKey pid)
              db := db.map (fun p => if p.1 = pid then (p.1, applyUpdate b p.2) else p)
              dbAccessed := true }

/-- ProductCtrl.deleteProduct (src/controller/Product.c.ts). Like
updateProduct, a successful delete only removes `product:<id>` from the
cache; listing keys stay. -/
def deleteProduct (idStr : String) (cache : KvCache) (db : ProductDb) : WriteOut :=
  match parseIntJs idStr with
  | none =>
      { resp := .badRequest "Invalid product ID", cache := cache, db := db
        dbAccessed := false }
  | some pid =>
      let remaining := db.filter (fun p => p.1 ≠ pid)
      if remaining.length = db.length then
        { resp := .notFound "Product not found", cache := cache, db := db
          dbAccessed := true }
      else
        { resp := .okJ (.jobj [("message", .jstr "Product deleted successfully")])
          cache := kvDel cache (productCacheKey pid)
          db := remaining
          dbAccessed := true }

end Ecom

namespace Ecom

/-- Association-list lookup (JS object indexing on string keys). -/
def lookupAssoc {α : Type} (l : List (String × α)) (k : String) : Option α :=
  (l.find? (fun p => p.1 = k)).map (fun p => p.2)

/-- Hash half of the Redis state (one hash per cart owner), with
per-key TTLs in seconds. Field values are kept in parsed form. -/
structure CartCache where
  hashes : List (String × List (String × JVal))
  ttls : List (String × Int)

/-- Redis HGET of one field. -/
def hGet (c : CartCache) (k field : String) : Option JVal :=
  match lookupAssoc c.hashes k with
  | some fields => lookupAssoc fields field
  | none => none

/-- Redis HGETALL (an absent key yields the empty object). -/
def hGetAll (c : CartCache) (k : String) : List (String × JVal) :=
  match lookupAssoc c.hashes k with
  | some fields => fields
  | none => []

/-- Redis HSET of one field (creates the hash when absent). -/
def hSet (c : CartCache) (k field : String) (v : JVal) : CartCache :=
  { c with hashes :=
      match lookupAssoc c.hashes k with
      | some fields => setAssoc c.hashes k (setAssoc fields field v)
      | none => c.hashes ++ [(k, [(field, v)])] }

/-- Redis HDEL of one field. -/
def hDelField (c : CartCache) (k field : String) : CartCache :=
  { c with hashes :=
      match lookupAssoc c.hashes k with
      | some fields => setAssoc c.hashes k (fields.filter (fun p => p.1 ≠ field))
      | none => c.hashes }

/-- Redis DEL of a whole hash key. -/
def delKey (c : CartCache) (k : String) : CartCache :=
  { hashes := c.hashes.filter (fun p => p.1 ≠ k)
    ttls := c.ttls.filter (fun p => p.1 ≠ k) }

/-- Redis EXPIRE. -/
def expireKey (c : CartCache) (k : String) (ttl : Int) : CartCache :=
  { c with ttls := setAssoc c.ttls k ttl }

/-- Does the hash key exist at all? -/
def hashKeyExists (c : CartCache) (k : String) : Bool :=
  (c.hashes.find? (fun p => p.1 = k)).isSome

/-- One row of the cart table. Numeric columns hold the numeric value
of what was written (the `toString`/decimal boundary is the identity on
finite numbers); `userId` is nullable; `expires_at` is `none` when an
Invalid Date was inserted. -/
structure CartRow where
  productId : JsNum
  quantity : JsNum
  unit_price : JsNum
  price : JsNum
  userId : Option Int
  expires_at : Option Int
deriving DecidableEq

/-- Binding a JS number as a Postgres integer parameter or integer
column value. node-postgres serializes NaN (and any non-integral
number) into a literal the integer column rejects, so the whole
statement throws instead of matching or storing anything; an integral
value binds as that integer. -/
def pgIntParam : JsNum → Except Unit Int
  | .num q => if q.den = 1 then .ok q.num else .error ()
  | _ => .error ()

/-- SQL `eq(userId, v)` once the integer parameter v bound
successfully: the NULL column matches nothing. -/
def colEqInt (col : Option Int) (v : Int) : Bool := col = some v

/-- SQL `eq(productId, v)` for the integer productId column against a
successfully bound integer parameter. -/
def colNumEqInt (col : JsNum) (v : Int) : Bool :=
  match col with
  | .num q => q = (v : ℚ)
  | _ => false

/-- Row predicate of `and(eq(userId, uidV), eq(productId, pidV))`: the
statement errors when either parameter fails to bind as an integer
(e.g. the guest path's `Number(undefined) = NaN`). -/
def rowFilterUidPid (uidV pidV : JsNum) : Except Unit (CartRow → Bool) :=
  match pgIntParam uidV, pgIntParam pidV with
  | .ok u, .ok p => .ok (fun r => colEqInt r.userId u && colNumEqInt r.productId p)
  | _, _ => .error ()

/-- Cart owner segment of the cache key: `user_id || "guest"` for a
query-string owner. -/
def ownerOf : Option String → String
  | none => "guest"
  | some s => if s = "" then "guest" else s

/-- Cart cache key `cart:<owner>`. -/
def cartKeyOf (user_id : Option String) : String := "cart:" ++ ownerOf user_id

/-- Template-literal rendering of the body values that reach
`cart:$\x7buser_id\x7d` and `productId.toString()` (integers and strings;
the handlers meet nothing else there). -/
def templateStr : JVal → String
  | .jstr s => s
  | .jnum (.num q) => if q.den = 1 then intToStr q.num else "[number]"
  | .jnum .nan => "NaN"
  | .jnum .inf => "Infinity"
  | .jnum .ninf => "-Infinity"
  | .jbool b => if b then "true" else "false"
  | .jnull => "null"
  | .jundefined => "undefined"
  | _ => "[object]"

/-- JS `Number(v)` on a body value (strings parse as full decimal
integers here; `Number(undefined)` is NaN). -/
def jsNumberVal : JVal → JsNum
  | .jstr s => jsNumberOfQuery (some s)
  | v => toNumber v

/-- JS `parseInt(v)` rendered back into a JS number (NaN on failure). -/
def parseIntValNum (v : JVal) : JsNum :=
  match parseIntVal v with
  | some i => .num i
  | none => .nan

/-- JS `parseInt(s)` rendered back into a JS number (NaN on failure). -/
def parseIntStrNum (s : String) : JsNum :=
  match parseIntJs s with
  | some i => .num i
  | none => .nan

/-- A `Date` value as it appears inside a JSON snapshot:
`JSON.stringify` renders a valid date as its ISO-8601 string (modelled
as an injective rendering of the timestamp) and an Invalid Date as
null. -/
def dateJ : Option Int → JVal
  | some t => .jstr ("1970-01-01T00:00:00.000Z+" ++ intToStr t)
  | none => .jnull

/-- A cart row as the store returns it (the JSON shape used when the
cache is repopulated from the persistent rows). -/
def rowToJVal (r : CartRow) : JVal :=
  .jobj [("productId", .jnum r.productId), ("quantity", .jnum r.quantity),
         ("unit_price", .jnum r.unit_price), ("price", .jnum r.price),
         ("userId", match r.userId with
                    | some u => .jnum (.num u)
                    | none => .jnull),
         ("expires_at", dateJ r.expires_at)]

/-- Request body of addCartItem. `expiresAt` carries the already-parsed
date value of the `expires_at` field (`none` = the field is absent). -/
structure AddBody where
  productId : JVal
  quantity : JVal
  price : JVal
  expiresAt : Option Int
  user_id : JVal

/-- Result of a cart handler: response plus the cart cache and cart
table afterwards. -/
structure CartOut where
  resp : HResp
  cache : CartCache
  db : List CartRow

/-- CartCtrl.addCartItem. `now` is `Date.now()`. The cache snapshot
defaults `expires_at` to now + 30 days, but the persistent insert uses
`new Date(expires_at)` on the raw body field: when the field is absent
this is an Invalid Date, whose timestamp serialization (toISOString)
throws while the insert is prepared, so the handler's catch answers
500 "Internal server error." and no row is inserted — after the cache
writes already happened. The integer columns likewise reject
non-integral bindings. -/
def addCartItem (b : AddBody) (now : Int) (cache : CartCache)
    (db : List CartRow) : CartOut :=
  if ¬ (truthy b.productId ∧ truthy b.price) then
    { resp := .badRequest "Product ID and price are required."
      cache := cache, db := db }
  else
    let qty := jvOr b.quantity (.jnum (.num 1))
    let unitPrice := parseFloatVal b.price
    let cartItem : JVal := .jobj
      [("productId", .jnum (parseIntValNum b.productId)),
       ("quantity", qty),
       ("price", .jnum unitPrice),
       ("unit_price", .jnum unitPrice),
       ("expires_at",
         match b.expiresAt with
         | some t => dateJ (some t)
         | none => dateJ (some (now + 2592000000))),
       ("userId", if truthy b.user_id then b.user_id else .jnull),
       ("added_at", dateJ (some now))]
    let cartKey := "cart:" ++ (if truthy b.user_id then templateStr b.user_id else "guest")
    let cache1 := hSet cache cartKey (templateStr b.productId) (jsonNormalize cartItem)
    let cache2 := expireKey cache1 cartKey 2592000
    let uidCol : Except Unit (Option Int) :=
      if truthy b.user_id then (pgIntParam (jsNumberVal b.user_id)).map some
      else .ok none
    let inserted : Except Unit CartRow :=
      match pgIntParam (jsNumberVal b.productId), pgIntParam (toNumber qty),
            uidCol, b.expiresAt with
      | .ok pid, .ok q, .ok uid, some t =>
          .ok { productId := .num pid, quantity := .num q,
                unit_price := unitPrice, price := unitPrice,
                userId := uid, expires_at := some t }
      | _, _, _, _ => .error ()
    match inserted with
    | .ok newRow =>
        { resp := .okJ (jsonNormalize (.jobj
            [("message", .jstr "Product added to cart."), ("cartItem", cartItem)]))
          cache := cache2
          db := db ++ [newRow] }
    | .error _ =>
        { resp := .serverError "Internal server error."
          cache := cache2
          db := db }

/-- Result of retrieveCartItems: response, state, whether the
persistent store was consulted and which rows the store filter
returned. -/
structure RetrieveOut where
  resp : HResp
  cache : CartCache
  db : List CartRow
  dbAccessed : Bool
  dbItems : List CartRow

/-- CartCtrl.retrieveCartItems: prefer the owner's hash; when it is
empty, fall back to the rows with `userId = Number(user_id)` and
repopulate the hash from them. When the userId parameter fails to bind
(guest: NaN), the select throws and the handler's catch answers 500
"Internal server error." — no rows are read and nothing is
repopulated. -/
def retrieveCartItems (user_id : Option String) (cache : CartCache)
    (db : List CartRow) : RetrieveOut :=
  let cartKey := cartKeyOf user_id
  let cartItems := hGetAll cache cartKey
  if cartItems.length > 0 then
    let parsed := cartItems.map (fun p => p.2)
    let total := parsed.foldl (fun t it => JsNum.add t (toNumber (getField it "price"))) (.num 0)
    let itemCount := parsed.foldl (fun t it => JsNum.add t (toNumber (getField it "quantity"))) (.num 0)
    { resp := .okJ (jsonNormalize (.jobj
        [("message", .jstr "Cart items retrieved from cache."),
         ("items", .jarr parsed),
         ("total", .jnum total), ("itemCount", .jnum itemCount)]))
      cache := cache, db := db, dbAccessed := false, dbItems := [] }
  else
    match pgIntParam (jsNumberOfQuery user_id) with
    | .error _ =>
        { resp := .serverError "Internal server error."
          cache := cache, db := db, dbAccessed := true, dbItems := [] }
    | .ok u =>
        let dbItems := db.filter (fun r => colEqInt r.userId u)
        let cache1 := dbItems.foldl
          (fun c it => hSet c cartKey (templateStr (.jnum it.productId))
            (jsonNormalize (rowToJVal it))) cache
        let cache2 := expireKey cache1 cartKey 2592000
        let total := dbItems.foldl (fun t it => JsNum.add t (parseFloatVal (.jnum it.price))) (.num 0)
        let itemCount := dbItems.foldl (fun t it => JsNum.add t it.quantity) (.num 0)
        { resp := .okJ (jsonNormalize (.jobj
            [("message", .jstr "Cart items retrieved from database."),
             ("items", .jarr (dbItems.map rowToJVal)),
             ("total", .jnum total), ("itemCount", .jnum itemCount)]))
          cache := cache2, db := db, dbAccessed := true, dbItems := dbItems }

/-- JS strict string equality `v === "lit"` on a value. -/
def isStrVal : JVal → String → Bool
  | .jstr s, t => s = t
  | _, _ => false

/-- CartCtrl.updateCartItem: increment/decrement by one; a decrement
reaching quantity ≤ 0 deletes the cache hash field and then issues the
persistent delete filtered on `userId = Number(user_id) AND productId =
parseInt(productId)`, reporting action "removed"; otherwise the
recomputed snapshot is written to the cache and the persistent update
is issued, reporting action "updated". Either store statement throws
when a parameter fails to bind (guest: userId = NaN); the handler's
catch then answers 500 "Error updating cart item quantity." after the
cache write already happened. -/
def updateCartItem (action : JVal) (productId : String)
    (user_id : Option String) (cache : CartCache) (db : List CartRow) : CartOut :=
  if ¬ (isStrVal action "increment" ∨ isStrVal action "decrement") then
    { resp := .badRequest "Valid action (increment/decrement) is required."
      cache := cache, db := db }
  else
    let cartKey := cartKeyOf user_id
    match hGet cache cartKey productId with
    | none =>
        { resp := .notFound "Product not found in cart.", cache := cache, db := db }
    | some itemData =>
        let currentQuantity := parseIntValNum (getField itemData "quantity")
        let unitPrice := parseFloatVal
          (jvOr (getField itemData "unit_price")
            (.jnum (JsNum.div (toNumber (getField itemData "price")) currentQuantity)))
        let uidNum := jsNumberOfQuery user_id
        let pidNum := parseIntStrNum productId
        if isStrVal action "increment" then
          let newQuantity := jvAdd (getField itemData "quantity") (.jnum (.num 1))
          let newTotalPrice := JsNum.mul unitPrice (toNumber newQuantity)
          let updatedItemData :=
            setField (setField itemData "quantity" newQuantity) "price" (.jnum newTotalPrice)
          let cache2 := hSet cache cartKey productId (jsonNormalize updatedItemData)
          match rowFilterUidPid uidNum pidNum, pgIntParam (toNumber newQuantity) with
          | .ok pred, .ok qv =>
              { resp := .okJ (jsonNormalize (.jobj
                  [("message", .jstr "Cart item quantity updated."),
                   ("productId", .jnum pidNum),
                   ("newQuantity", newQuantity),
                   ("newTotalPrice", .jnum newTotalPrice),
                   ("action", .jstr "updated")]))
                cache := cache2
                db := db.map (fun r =>
                  if pred r then { r with quantity := .num qv, price := newTotalPrice }
                  else r) }
          | _, _ =>
              { resp := .serverError "Error updating cart item quantity."
                cache := cache2, db := db }
        else
          let newQuantity : JVal :=
            .jnum (JsNum.sub (toNumber (getField itemData "quantity")) (.num 1))
          if JsNum.leb (toNumber newQuantity) (.num 0) then
            let cache2 := hDelField cache cartKey productId
            match rowFilterUidPid uidNum pidNum with
            | .ok pred =>
                { resp := .okJ (jsonNormalize (.jobj
                    [("message", .jstr "Item removed from cart."),
                     ("productId", .jnum pidNum),
                     ("action", .jstr "removed")]))
                  cache := cache2
                  db := db.filter (fun r => ¬ pred r) }
            | .error _ =>
                { resp := .serverError "Error updating cart item quantity."
                  cache := cache2, db := db }
          else
            let newTotalPrice := JsNum.mul unitPrice (toNumber newQuantity)
            let updatedItemData :=
              setField (setField itemData "quantity" newQuantity) "price" (.jnum newTotalPrice)
            let cache2 := hSet cache cartKey productId (jsonNormalize updatedItemData)
            match rowFilterUidPid uidNum pidNum, pgIntParam (toNumber newQuantity) with
            | .ok pred, .ok qv =>
                { resp := .okJ (jsonNormalize (.jobj
                    [("message", .jstr "Cart item quantity updated."),
                     ("productId", .jnum pidNum),
                     ("newQuantity", newQuantity),
                     ("newTotalPrice", .jnum newTotalPrice),
                     ("action", .jstr "updated")]))
                  cache := cache2
                  db := db.map (fun r =>
                    if pred r then { r with quantity := .num qv, price := newTotalPrice }
                    else r) }
            | _, _ =>
                { resp := .serverError "Error updating cart item quantity."
                  cache := cache2, db := db }

/-- CartCtrl.removeCartItem: unconditional HDEL, then a persistent
delete filtered on `userId = Number(user_id) AND productId =
parseInt(productId)`; a parameter that fails to bind (guest: NaN)
makes the delete throw, and the handler answers 500 with the hash
field already deleted. -/
def removeCartItem (productId : String) (user_id : Option String)
    (cache : CartCache) (db : List CartRow) : CartOut :=
  let cartKey := cartKeyOf user_id
  let cache2 := hDelField cache cartKey productId
  match rowFilterUidPid (jsNumberOfQuery user_id) (parseIntStrNum productId) with
  | .ok pred =>
      { resp := .okJ (.jobj [("message", .jstr "Cart item deleted.")])
        cache := cache2
        db := db.filter (fun r => ¬ pred r) }
  | .error _ =>
      { resp := .serverError "Internal server error."
        cache := cache2, db := db }

/-- CartCtrl.clearCart: DEL the owner's hash, then delete the rows
with `userId = Number(user_id)`; for the guest owner the NaN parameter
makes the delete throw and the handler answers 500 with the hash
already gone. -/
def clearCart (user_id : Option String) (cache : CartCache)
    (db : List CartRow) : CartOut :=
  let cartKey := cartKeyOf user_id
  let cache2 := delKey cache cartKey
  match pgIntParam (jsNumberOfQuery user_id) with
  | .ok u =>
      { resp := .okJ (.jobj [("message", .jstr "Cart cleared successfully.")])
        cache := cache2
        db := db.filter (fun r => ¬ colEqInt r.userId u) }
  | .error _ =>
      { resp := .serverError "Internal server error."
        cache := cache2, db := db }

/-- One step of the mergeCarts loop; `userItems` is the snapshot of
the target hash taken before the loop. Returns the updated
(cache, rows), or — when a store statement rejects a binding — the
state at the moment of the throw (the Redis write of the step already
happened). -/
def mergeStep (user_id : JVal) (userCartKey : String)
    (userItems : List (String × JVal)) (st : CartCache × List CartRow)
    (entry : String × JVal) :
    Except (CartCache × List CartRow) (CartCache × List CartRow) :=
  let cache := st.1
  let db := st.2
  let productId := entry.1
  let guestItem := entry.2
  let pidNum := parseIntStrNum productId
  match lookupAssoc userItems productId with
  | some userItem =>
      let newQuantity := jvAdd (getField userItem "quantity") (getField guestItem "quantity")
      -- const newPrice = userItem.unitPrice * newQuantity
      let newPrice := jvMul (getField userItem "unitPrice") newQuantity
      let merged :=
        setField (setField userItem "quantity" newQuantity) "price" newPrice
      let cache2 := hSet cache userCartKey productId (jsonNormalize merged)
      match rowFilterUidPid (jsNumberVal user_id) pidNum,
            pgIntParam (toNumber newQuantity) with
      | .ok pred, .ok qv =>
          .ok (cache2, db.map (fun r =>
            if pred r then
              { r with quantity := .num qv, price := toNumber newPrice }
            else r))
      | _, _ => .error (cache2, db)
  | none =>
      let cache2 := hSet cache userCartKey productId guestItem
      match pgIntParam (jsNumberVal user_id), pgIntParam pidNum with
      | .ok uv, .ok pv =>
          .ok (cache2, db.map (fun r =>
            if r.userId.isNone && colNumEqInt r.productId pv then
              { r with userId := some uv }
            else r))
      | _, _ => .error (cache2, db)

/-- The mergeCarts for-loop: apply mergeStep to each guest entry in
order, stopping at the first store error with the state accumulated so
far (`true` marks the abort). -/
def mergeLoop (user_id : JVal) (userCartKey : String)
    (userItems : List (String × JVal)) :
    List (String × JVal) → CartCache × List CartRow →
    (CartCache × List CartRow) × Bool
  | [], st => (st, false)
  | e :: rest, st =>
      match mergeStep user_id userCartKey userItems st e with
      | .ok st2 => mergeLoop user_id userCartKey userItems rest st2
      | .error st2 => (st2, true)

/-- CartCtrl.mergeCarts: absorb the guest hash into the target owner's
hash (summing quantities on overlap, re-pointing NULL-owner rows
otherwise) and delete the guest hash; a store error inside the loop
aborts it, the guest hash is NOT deleted and the handler answers 500. -/
def mergeCarts (user_id : JVal) (cache : CartCache) (db : List CartRow) : CartOut :=
  if ¬ truthy user_id then
    { resp := .badRequest "User ID are required", cache := cache, db := db }
  else
    let guestCartKey := "cart:guest"
    let userCartKey := "cart:" ++ templateStr user_id
    let guestItems := hGetAll cache guestCartKey
    if guestItems.length = 0 then
      { resp := .okJ (.jobj [("message", .jstr "No items to merge")])
        cache := cache, db := db }
    else
      let userItems := hGetAll cache userCartKey
      let result := mergeLoop user_id userCartKey userItems guestItems (cache, db)
      if result.2 then
        { resp := .serverError "Internal server error."
          cache := result.1.1, db := result.1.2 }
      else
        { resp := .okJ (.jobj [("message", .jstr "Carts merged successfully")])
          cache := delKey result.1.1 guestCartKey
          db := result.1.2 }

end Ecom

namespace Ecom

/-- Is the response a success (2xx with JSON body)? -/
def isOk : HResp → Bool
  | .okJ _ => true
  | _ => false

/-- Is the response the 400 validation error? -/
def isBadRequest : HResp → Bool
  | .badRequest _ => true
  | _ => false

/-- A field of the JSON body of a successful response (`undefined` for
error responses). -/
def respField (r : HResp) (f : String) : JVal :=
  match r with
  | .okJ v => getField v f
  | _ => .jundefined

/-- Composition of a hash-field read and a JSON property access. -/
def hGetField (c : CartCache) (k f field : String) : JVal :=
  match hGet c k f with
  | some v => getField v field
  | none => .jundefined

/-- The listing cache key cached in claim scenarios: effective
parameters page 1, limit 10, default sort, ascending, no category
(`ascSrc` stands for the interpolated source text of drizzle's `asc`). -/
def ascSrc : String := "ascFnSrc"

/-- A sample cached listing entry key for the default parameters. -/
def sampleListingKey : String := productsCacheKey 1 10 "createdAt" ascSrc none

/-- Product row with id 5 used in concrete scenarios. -/
def prodRow5 : JVal :=
  .jobj [("id", .jnum (.num 5)), ("name", .jstr "Widget"),
         ("description", .jstr "A widget"), ("price", .jnum (.num 10)),
         ("category", .jstr "tools"), ("inStock", .jbool true)]

/-- Cache state holding one listing entry and the single-product entry
for product 5. -/
def c1Cache : KvCache :=
  { entries := [(sampleListingKey, .jstr "cachedListing"),
                (productCacheKey 5, .jstr "cachedProduct")]
    ttls := [(sampleListingKey, 300), (productCacheKey 5, 3600)] }

/-- The update body `\x7b name: "x" \x7d`. -/
def c1Body : UpdateBody := ⟨.jstr "x", .jundefined, .jundefined, .jundefined, .jundefined⟩

/-- C1. The claim says a successful product update or delete
invalidates the single-product entry AND every listing entry. In the
controller wired to the routes, the success paths of updateProduct and
deleteProduct delete only `product:<id>`: after a successful update (and
likewise a successful delete) of product 5, the cached listing entry is
still present while `product:5` is gone, so the listing half of the
claim fails on this code (the repository's refactored controller copy
and its test setup show the intended wildcard invalidation). -/
theorem c1_update_delete_keep_listing_entries :
    isOk (updateProduct "5" c1Body c1Cache [(5, prodRow5)]).resp = true ∧
    kvGet (updateProduct "5" c1Body c1Cache [(5, prodRow5)]).cache sampleListingKey
      = some (.jstr "cachedListing") ∧
    kvGet (updateProduct "5" c1Body c1Cache [(5, prodRow5)]).cache (productCacheKey 5)
      = none ∧
    isOk (deleteProduct "5" c1Cache [(5, prodRow5)]).resp = true ∧
    kvGet (deleteProduct "5" c1Cache [(5, prodRow5)]).cache sampleListingKey
      = some (.jstr "cachedListing") ∧
    kvGet (deleteProduct "5" c1Cache [(5, prodRow5)]).cache (productCacheKey 5)
      = none ∧
    (deleteProduct "5" c1Cache [(5, prodRow5)]).db = [] :=
  ⟨rfl, rfl, rfl, rfl, rfl, rfl, rfl⟩

/-- The listing query of the C2 scenario: page 1, limit 10, all other
parameters absent. -/
def c2Query : ProductsQuery := ⟨some "1", some "10", none, none, none⟩

/-- The C2 miss run: empty cache, the count query reports 15 rows. -/
def c2Miss : GetProductsOut :=
  getProducts c2Query ascSrc "descFnSrc" ⟨[], []⟩ false false 15
    [.jobj [("id", .jnum (.num 1))]]

/-- The C2 hit run: the same request again, against the cache the miss
run populated. -/
def c2Hit : GetProductsOut :=
  getProducts c2Query ascSrc "descFnSrc" c2Miss.cache false false 15 []

/-- C2. The claim says a cache hit returns the cached totalCount and
totalPages with hasNext = page < totalPages (so 15/2/true for
totalCount 15, limit 10, page 1). In the code the miss path caches the
whole `responseData` object (products plus a nested `pagination`
object), while the hit path destructures `totalCount`/`totalPages` from
the TOP level of the parsed value; on a hit against a self-written
entry both come out `undefined`, `hasNext = page < undefined` is false,
and the serialized response carries no totalCount/totalPages at all.
The second run below is a genuine hit (no store access), yet its
pagination reports undefined counts and hasNext = false. -/
theorem c2_cache_hit_loses_counts :
    c2Miss.dbAccessed = true ∧
    c2Hit.dbAccessed = false ∧
    getField (respField c2Hit.resp "pagination") "totalCount" = .jundefined ∧
    getField (respField c2Hit.resp "pagination") "totalPages" = .jundefined ∧
    getField (respField c2Hit.resp "pagination") "hasNext" = .jbool false ∧
    getField (respField c2Hit.resp "pagination") "hasPrev" = .jbool false ∧
    getField (respField c2Miss.resp "pagination") "hasNext" = .jbool true :=
  ⟨rfl, rfl, rfl, rfl, rfl, rfl, by
    show getField (missPagination 1 10 15 (totalPagesOf 15 10)) "hasNext" = .jbool true
    have h2 : totalPagesOf 15 10 = 2 := by
      rw [totalPagesOf, Int.ceil_eq_iff]; norm_num
    rw [h2]
    rfl⟩

/-- C4. The claim says any cache-layer failure in the single-product
fetch is recovered locally and never surfaces as an error response. In
the controller wired to the routes, neither the `redisClient.get` nor
the `redisClient.setEx` of getProductById is individually wrapped, so a
throwing cache call falls into the handler's outer catch and the caller
receives the 500 "Error fetching product" — on a cache-get failure the
store is never even consulted, and on a cache-populate failure the
found product is discarded. (The repository's own unit tests expect 200
with the product in both situations.) -/
theorem c4_cache_failure_surfaces_as_500 :
    (getProductById "1" ⟨[], []⟩ true false [(1, prodRow5)]).resp
      = .serverError "Error fetching product" ∧
    (getProductById "1" ⟨[], []⟩ true false [(1, prodRow5)]).dbAccessed = false ∧
    (getProductById "1" ⟨[], []⟩ false true [(1, prodRow5)]).resp
      = .serverError "Error fetching product" ∧
    (getProductById "1" ⟨[], []⟩ false true [(1, prodRow5)]).dbAccessed = true :=
  ⟨rfl, rfl, rfl, rfl⟩

end Ecom

namespace Ecom

/-- Add-to-cart body of the C6 scenario: productId 1 and price 10
present, quantity and expires_at absent. -/
def c6Body : AddBody := ⟨.jnum (.num 1), .jundefined, .jnum (.num 10), none, .jundefined⟩

/-- The C6 run at `Date.now() = 0` on empty states. -/
def c6Out : CartOut := addCartItem c6Body 0 ⟨[], []⟩ []

/-- C6. The claim says quantity defaults to 1 and expires_at defaults
to now + 30 days when absent, the snapshot is written under field
`productId` in the owner's hash with the TTL refreshed to 30 days, and
a line item with the SAME quantity and expiry is then inserted into the
store. The cache half holds, but with expires_at absent the insert
evaluates `new Date(expires_at)` — an Invalid Date whose timestamp
serialization throws — so the handler answers 500 "Internal server
error." and NO row is inserted (while the cache already carries the
snapshot with the defaulted expiry). With expires_at supplied, the
insert does succeed with the same quantity and expiry. -/
theorem c6_add_defaults_and_insert :
    hGetField c6Out.cache "cart:guest" "1" "quantity" = .jnum (.num 1) ∧
    hGetField c6Out.cache "cart:guest" "1" "expires_at" = dateJ (some 2592000000) ∧
    lookupAssoc c6Out.cache.ttls "cart:guest" = some 2592000 ∧
    c6Out.resp = .serverError "Internal server error." ∧
    c6Out.db = [] ∧
    isOk (addCartItem { c6Body with expiresAt := some 500 } 0 ⟨[], []⟩ []).resp = true ∧
    (addCartItem { c6Body with expiresAt := some 500 } 0 ⟨[], []⟩ []).db
      = [{ productId := .num 1, quantity := .num 1, unit_price := .num 10,
           price := .num 10, userId := none, expires_at := some 500 }] :=
  ⟨rfl, rfl, rfl, rfl, rfl, rfl, rfl⟩

/-- Guest cart snapshot for product 1 in the C3 scenario: quantity 2 at
unit price 10 (the shape addCartItem writes, with field `unit_price`). -/
def c3GuestItem : JVal :=
  .jobj [("productId", .jnum (.num 1)), ("quantity", .jnum (.num 2)),
         ("price", .jnum (.num 20)), ("unit_price", .jnum (.num 10))]

/-- Target user's snapshot for the same product: quantity 1 at unit
price 10. -/
def c3UserItem : JVal :=
  .jobj [("productId", .jnum (.num 1)), ("quantity", .jnum (.num 1)),
         ("price", .jnum (.num 10)), ("unit_price", .jnum (.num 10))]

/-- Cache before the merge: guest and user 7 both hold product 1. -/
def c3Cache : CartCache :=
  ⟨[("cart:guest", [("1", c3GuestItem)]), ("cart:7", [("1", c3UserItem)])], []⟩

/-- User 7's persistent row for product 1 before the merge. -/
def c3Row : CartRow :=
  { productId := .num 1, quantity := .num 1, unit_price := .num 10,
    price := .num 10, userId := some 7, expires_at := some 1000 }

/-- The C3 merge run: guest cart into user 7. -/
def c3Out : CartOut := mergeCarts (.jnum (.num 7)) c3Cache [c3Row]

/-- C3. The claim says the overlapping product's merged quantity is the
sum (3) and its line total is the target's unit price times the summed
quantity (30), in both cache and store, with the guest key gone.
The quantity sum and the guest-key deletion hold, but the line total
does not: the code multiplies `userItem.unitPrice` — a field that does
not exist, the snapshots carry `unit_price` — so the computed price is
`undefined * 3 = NaN`, serialized into the cache hash as null and
written to the store as NaN (the string "NaN"), not 3 × P = 30. -/
theorem c3_merge_sums_quantity_but_nan_price :
    respField c3Out.resp "message" = .jstr "Carts merged successfully" ∧
    hashKeyExists c3Out.cache "cart:guest" = false ∧
    hGetField c3Out.cache "cart:7" "1" "quantity" = .jnum (.num 3) ∧
    hGetField c3Out.cache "cart:7" "1" "price" = .jnull ∧
    c3Out.db.map (fun r => r.quantity) = [.num 3] ∧
    c3Out.db.map (fun r => r.price) = [.nan] := by
  have hsum : (1 : ℚ) + 2 = 3 := by norm_num
  have hq3 : pgIntParam (.num 3) = .ok 3 := rfl
  have hpid : parseIntStrNum "1" = .num 1 := rfl
  have huid : jsNumberVal (.jnum (.num 7)) = .num 7 := rfl
  have hfil : rowFilterUidPid (.num 7) (.num 1)
      = .ok (fun r => colEqInt r.userId 7 && colNumEqInt r.productId 1) := rfl
  have hkey : "cart:" ++ intToStr 7 = "cart:7" := rfl
  have hguest : hGetAll c3Cache "cart:guest" = [("1", c3GuestItem)] := rfl
  have huser : hGetAll c3Cache "cart:7" = [("1", c3UserItem)] := rfl
  have hstep : mergeStep (.jnum (.num 7)) "cart:7" [("1", c3UserItem)]
      (c3Cache, [c3Row]) ("1", c3GuestItem)
      = .ok (hSet c3Cache "cart:7" "1" (jsonNormalize
          (setField (setField c3UserItem "quantity" (.jnum (.num 3)))
            "price" (.jnum .nan))),
        [{ c3Row with quantity := .num 3, price := .nan }]) := by
    simp [mergeStep, lookupAssoc, List.find?, getField, c3UserItem, c3GuestItem,
      jvAdd, jvMul, toNumber, JsNum.add, JsNum.mul, hsum, hq3, hfil, hpid, huid,
      setField, colEqInt, colNumEqInt, c3Row]
  have hrun : c3Out =
      { resp := .okJ (.jobj [("message", .jstr "Carts merged successfully")])
        cache := delKey (hSet c3Cache "cart:7" "1" (jsonNormalize
          (setField (setField c3UserItem "quantity" (.jnum (.num 3)))
            "price" (.jnum .nan)))) "cart:guest"
        db := [{ c3Row with quantity := .num 3, price := .nan }] } := by
    show mergeCarts (.jnum (.num 7)) c3Cache [c3Row] = _
    simp [mergeCarts, mergeLoop, truthy, JsNum.truthy, templateStr, hkey,
      hguest, huser, hstep]
  rw [hrun]
  exact ⟨rfl, rfl, rfl, rfl, rfl, rfl⟩

end Ecom

namespace Ecom

theorem lookupAssoc_setAssoc_self {α : Type} (l : List (String × α)) (k : String) (v : α) :
    lookupAssoc (setAssoc l k v) k = some v := by
  induction l with
  | nil => simp [setAssoc, lookupAssoc]
  | cons p rest ih =>
      by_cases h : p.1 = k
      · simp [setAssoc, lookupAssoc, h]
      · simpa [setAssoc, lookupAssoc, List.find?, h] using ih

theorem lookupAssoc_filter_ne {α : Type} (l : List (String × α)) (f : String) :
    lookupAssoc (l.filter (fun p => !decide (p.1 = f))) f = none := by
  induction l with
  | nil => simp [lookupAssoc]
  | cons p rest ih =>
      by_cases h : p.1 = f
      · simp [List.filter, h, ih]
      · simp [lookupAssoc, List.filter, List.find?, h, ih]

theorem hGet_hDelField_self (c : CartCache) (k f : String) :
    hGet (hDelField c k f) k f = none := by
  unfold hGet hDelField
  cases h : lookupAssoc c.hashes k with
  | none => simp [h]
  | some fields =>
      simp only [h, lookupAssoc_setAssoc_self, decide_not]
      exact lookupAssoc_filter_ne fields f

end Ecom

namespace Ecom

theorem updateCart_decrement_to_zero (pidStr : String) (user_id : Option String)
    (cache : CartCache) (db : List CartRow) (item : JVal) (q : ℚ)
    (hi : hGet cache (cartKeyOf user_id) pidStr = some item)
    (hq : toNumber (getField item "quantity") = .num q)
    (hle : q ≤ 1) :
    updateCartItem (.jstr "decrement") pidStr user_id cache db =
      match rowFilterUidPid (jsNumberOfQuery user_id) (parseIntStrNum pidStr) with
      | .ok pred =>
          { resp := .okJ (jsonNormalize (.jobj
              [("message", .jstr "Item removed from cart."),
               ("productId", .jnum (parseIntStrNum pidStr)),
               ("action", .jstr "removed")]))
            cache := hDelField cache (cartKeyOf user_id) pidStr
            db := db.filter (fun r => ¬ pred r) }
      | .error _ =>
          { resp := .serverError "Error updating cart item quantity."
            cache := hDelField cache (cartKeyOf user_id) pidStr
            db := db } := by
  unfold updateCartItem
  rw [if_neg (by simp [isStrVal])]
  simp only [hi]
  rw [if_neg (by simp [isStrVal])]
  simp only [hq]
  simp only [toNumber, JsNum.sub, JsNum.neg, JsNum.add, JsNum.leb, decide_eq_true_eq]
  rw [if_pos (by linarith)]

end Ecom

namespace Ecom

/-- Cart snapshot with quantity 1 at unit price 10 for product 1. -/
def c7Item : JVal :=
  .jobj [("productId", .jnum (.num 1)), ("quantity", .jnum (.num 1)),
         ("price", .jnum (.num 10)), ("unit_price", .jnum (.num 10))]

/-- Guest cache holding that single item. -/
def c7GuestCache : CartCache := ⟨[("cart:guest", [("1", c7Item)])], []⟩

/-- The guest's persistent row for product 1 (userId NULL). -/
def c7GuestRow : CartRow :=
  { productId := .num 1, quantity := .num 1, unit_price := .num 10,
    price := .num 10, userId := none, expires_at := some 1000 }

/-- The guest decrement run of the C7 counterexample. -/
def c7GuestOut : CartOut :=
  updateCartItem (.jstr "decrement") "1" none c7GuestCache [c7GuestRow]

/-- C7 counterexample. The claim says every decrement that reaches
quantity ≤ 0 deletes the item from both the owner's cache hash and the
persistent store. For the guest owner this is false: the handler
deletes the cache hash field first, but the persistent delete binds
`userId = Number(undefined) = NaN`, which the integer column rejects —
the statement throws, the handler answers 500 "Error updating cart item
quantity." (no removal outcome), and the guest's NULL-owner row
survives untouched. -/
theorem c7_guest_decrement_row_survives :
    c7GuestOut.resp = .serverError "Error updating cart item quantity." ∧
    hGet c7GuestOut.cache "cart:guest" "1" = none ∧
    c7GuestOut.db = [c7GuestRow] := by
  have e : c7GuestOut =
      match rowFilterUidPid (jsNumberOfQuery none) (parseIntStrNum "1") with
      | .ok pred =>
          { resp := .okJ (jsonNormalize (.jobj
              [("message", .jstr "Item removed from cart."),
               ("productId", .jnum (parseIntStrNum "1")),
               ("action", .jstr "removed")]))
            cache := hDelField c7GuestCache (cartKeyOf none) "1"
            db := [c7GuestRow].filter (fun r => ¬ pred r) }
      | .error _ =>
          { resp := .serverError "Error updating cart item quantity."
            cache := hDelField c7GuestCache (cartKeyOf none) "1"
            db := [c7GuestRow] } :=
    updateCart_decrement_to_zero "1" none c7GuestCache [c7GuestRow] c7Item 1 rfl rfl
      (le_refl 1)
  rw [e]
  exact ⟨rfl, rfl, rfl⟩

/-- C7 as amended: for an AUTHENTICATED owner (numeric `user_id` query
parameter), a decrement that brings the quantity to 0 or below deletes
the cache hash field, deletes the owner's matching persistent row, and
reports a removal outcome; for the guest owner the cache field is
deleted but the persistent delete throws on the NaN userId binding and
the handler answers 500, the NULL-owner row surviving. -/
theorem c7_auth_decrement_removes (uid pidStr : String) (n pidInt : Int)
    (cache : CartCache) (db : List CartRow) (item : JVal) (q : ℚ) (r0 : CartRow)
    (hu : jsNumberOfQuery (some uid) = .num n)
    (hp : parseIntJs pidStr = some pidInt)
    (hi : hGet cache (cartKeyOf (some uid)) pidStr = some item)
    (hq : toNumber (getField item "quantity") = .num q)
    (hle : q ≤ 1)
    (hr0 : r0.userId = some n) (hrp : r0.productId = .num pidInt) :
    respField (updateCartItem (.jstr "decrement") pidStr (some uid) cache db).resp
      "action" = .jstr "removed" ∧
    hGet (updateCartItem (.jstr "decrement") pidStr (some uid) cache db).cache
      (cartKeyOf (some uid)) pidStr = none ∧
    r0 ∉ (updateCartItem (.jstr "decrement") pidStr (some uid) cache db).db := by
  rw [updateCart_decrement_to_zero pidStr (some uid) cache db item q hi hq hle]
  have hfil : rowFilterUidPid (jsNumberOfQuery (some uid)) (parseIntStrNum pidStr)
      = .ok (fun r => colEqInt r.userId n && colNumEqInt r.productId pidInt) := by
    rw [hu, show parseIntStrNum pidStr = .num pidInt by simp [parseIntStrNum, hp]]
    simp [rowFilterUidPid, pgIntParam]
  rw [hfil]
  refine ⟨rfl, hGet_hDelField_self _ _ _, ?_⟩
  intro hmem
  rw [List.mem_filter] at hmem
  have h1 : colEqInt r0.userId n = true := by rw [hr0]; simp [colEqInt]
  have h2 : colNumEqInt r0.productId pidInt = true := by rw [hrp]; simp [colNumEqInt]
  have := hmem.2
  simp [h1, h2] at this

/-- Witness for c7_auth_decrement_removes: user 7 decrements product 1
(quantity 1); the hash field and the row with userId 7 are both
removed and action "removed" is reported. -/
theorem c7_auth_decrement_removes_w :
    (jsNumberOfQuery (some "7") = .num 7 ∧ parseIntJs "1" = some 1 ∧ (1 : ℚ) ≤ 1) ∧
    (respField (updateCartItem (.jstr "decrement") "1" (some "7")
        ⟨[("cart:7", [("1", c7Item)])], []⟩
        [{ productId := .num 1, quantity := .num 1, unit_price := .num 10,
           price := .num 10, userId := some 7, expires_at := some 1000 }]).resp
      "action" = .jstr "removed" ∧
     hGet (updateCartItem (.jstr "decrement") "1" (some "7")
        ⟨[("cart:7", [("1", c7Item)])], []⟩
        [{ productId := .num 1, quantity := .num 1, unit_price := .num 10,
           price := .num 10, userId := some 7, expires_at := some 1000 }]).cache
      (cartKeyOf (some "7")) "1" = none ∧
     ({ productId := .num 1, quantity := .num 1, unit_price := .num 10,
        price := .num 10, userId := some 7, expires_at := some 1000 } : CartRow) ∉
       (updateCartItem (.jstr "decrement") "1" (some "7")
        ⟨[("cart:7", [("1", c7Item)])], []⟩
        [{ productId := .num 1, quantity := .num 1, unit_price := .num 10,
           price := .num 10, userId := some 7, expires_at := some 1000 }]).db) :=
  ⟨⟨by
      rw [show jsNumberOfQuery (some "7") = JsNum.num ((7 : Nat) : ℚ) from rfl]
      norm_num, rfl, le_refl 1⟩,
   c7_auth_decrement_removes "7" "1" 7 1
     ⟨[("cart:7", [("1", c7Item)])], []⟩
     [{ productId := .num 1, quantity := .num 1, unit_price := .num 10,
        price := .num 10, userId := some 7, expires_at := some 1000 }]
     c7Item 1
     { productId := .num 1, quantity := .num 1, unit_price := .num 10,
       price := .num 10, userId := some 7, expires_at := some 1000 }
     (by
      rw [show jsNumberOfQuery (some "7") = JsNum.num ((7 : Nat) : ℚ) from rfl]
      norm_num) rfl rfl rfl
     (le_refl 1) rfl rfl⟩

end Ecom

namespace Ecom

theorem jsNumberOfQuery_none : jsNumberOfQuery none = .nan := rfl

/-- C10. Every cart operation invoked without a user_id uses the cache
key `cart:guest`, but binds `userId = Number(undefined) = NaN` in its
store statement, which the integer column rejects: every guest
read/update/delete of the cart table throws. In every branch the table
is left untouched — in particular rows stored with userId NULL are
never read, updated or deleted — and when the guest hash is empty the
database fallback of retrieveCartItems answers 500 having read and
repopulated nothing, so a guest cart is effectively cache-only after
insertion. -/
theorem c10_guest_ops_never_touch_rows
    (cache : CartCache) (db : List CartRow) (pidStr : String) (action : JVal) :
    cartKeyOf none = "cart:guest" ∧
    (retrieveCartItems none cache db).db = db ∧
    (removeCartItem pidStr none cache db).db = db ∧
    (clearCart none cache db).db = db ∧
    (updateCartItem action pidStr none cache db).db = db ∧
    (hGetAll cache (cartKeyOf none) = [] →
      (retrieveCartItems none cache db).resp = .serverError "Internal server error." ∧
      (retrieveCartItems none cache db).dbAccessed = true ∧
      (retrieveCartItems none cache db).dbItems = [] ∧
      (retrieveCartItems none cache db).cache = cache) := by
  refine ⟨rfl, ?_, rfl, rfl, ?_, ?_⟩
  · unfold retrieveCartItems
    dsimp only
    split <;> rfl
  · unfold updateCartItem
    split
    · rfl
    · cases h : hGet cache (cartKeyOf none) pidStr with
      | none => simp [h]
      | some itemData =>
          simp only [h]
          split
          · rfl
          · split
            · rfl
            · rfl
  · intro hEmpty
    refine ⟨?_, ?_, ?_, ?_⟩ <;>
      · unfold retrieveCartItems
        simp [hEmpty, jsNumberOfQuery_none, pgIntParam]

/-- Witness for c10_guest_ops_never_touch_rows, applied twice: once
with the populated guest cache of the C7 scenario and a decrement that
exercises the real removal branch (the NULL-owner row survives), once
with an empty guest hash so the database fallback's 500 is reached. -/
theorem c10_guest_ops_never_touch_rows_w :
    hGetAll (⟨[], []⟩ : CartCache) (cartKeyOf none) = [] ∧
    (updateCartItem (.jstr "decrement") "1" none c7GuestCache [c7GuestRow]).db
      = [c7GuestRow] ∧
    (retrieveCartItems none ⟨[], []⟩ [c7GuestRow]).resp
      = .serverError "Internal server error." ∧
    (retrieveCartItems none ⟨[], []⟩ [c7GuestRow]).dbItems = [] :=
  ⟨rfl,
   (c10_guest_ops_never_touch_rows c7GuestCache [c7GuestRow] "1"
     (.jstr "decrement")).2.2.2.2.1,
   ((c10_guest_ops_never_touch_rows ⟨[], []⟩ [c7GuestRow] "1"
     (.jstr "increment")).2.2.2.2.2 rfl).1,
   ((c10_guest_ops_never_touch_rows ⟨[], []⟩ [c7GuestRow] "1"
     (.jstr "increment")).2.2.2.2.2 rfl).2.2.1⟩

end Ecom

namespace Ecom

/-- C8 counterexample. The claim says every identifier that does not
parse to a POSITIVE integer is rejected with a validation error before
any store access. But `parseInt` happily returns negative integers:
for id "-5" the guard (which only checks isNaN) passes, no validation
error is raised, and the persistent store IS queried (yielding 404). -/
theorem c8_negative_id_reaches_store :
    parseIntJs "-5" = some (-5) ∧
    isBadRequest (getProductById "-5" ⟨[], []⟩ false false []).resp = false ∧
    (getProductById "-5" ⟨[], []⟩ false false []).dbAccessed = true ∧
    (getProductById "-5" ⟨[], []⟩ false false []).resp = .notFound "Product not found" :=
  ⟨rfl, rfl, rfl, rfl⟩

/-- C8 as amended: only identifiers on which `parseInt` yields NaN
(no leading integer at all) are rejected; those are answered with the
400 "Invalid product ID" before any cache or store access, on get,
update and delete alike. Identifiers parsing to zero or negative
integers proceed to the stores. -/
theorem c8_nan_id_short_circuits (idStr : String) (cache : KvCache)
    (gT sT : Bool) (db : ProductDb) (b : UpdateBody)
    (h : parseIntJs idStr = none) :
    (getProductById idStr cache gT sT db).resp = .badRequest "Invalid product ID" ∧
    (getProductById idStr cache gT sT db).cacheAccessed = false ∧
    (getProductById idStr cache gT sT db).dbAccessed = false ∧
    (updateProduct idStr b cache db).resp = .badRequest "Invalid product ID" ∧
    (updateProduct idStr b cache db).cache = cache ∧
    (updateProduct idStr b cache db).db = db ∧
    (updateProduct idStr b cache db).dbAccessed = false ∧
    (deleteProduct idStr cache db).resp = .badRequest "Invalid product ID" ∧
    (deleteProduct idStr cache db).cache = cache ∧
    (deleteProduct idStr cache db).db = db ∧
    (deleteProduct idStr cache db).dbAccessed = false := by
  unfold getProductById updateProduct deleteProduct
  simp [h]

/-- Witness for c8_nan_id_short_circuits at id "abc". -/
theorem c8_nan_id_short_circuits_w :
    parseIntJs "abc" = none ∧
    (getProductById "abc" ⟨[], []⟩ false false [(1, prodRow5)]).resp
      = .badRequest "Invalid product ID" ∧
    (getProductById "abc" ⟨[], []⟩ false false [(1, prodRow5)]).dbAccessed = false :=
  ⟨rfl,
   (c8_nan_id_short_circuits "abc" ⟨[], []⟩ false false [(1, prodRow5)] c1Body rfl).1,
   (c8_nan_id_short_circuits "abc" ⟨[], []⟩ false false [(1, prodRow5)] c1Body rfl).2.2.1⟩

/-- C5 counterexample. The claim says the effective limit is clamped
into [1, 100]. The code only caps it from above
(`Math.min(parseInt(limit) || 10, 100)`): limit "-5" flows through as
-5 all the way into the store query, and (in this controller) page
"-3" flows through as -3 as well. -/
theorem c5_negative_limit_passes_through :
    (getProducts ⟨some "1", some "-5", none, none, none⟩ ascSrc "descFnSrc"
        ⟨[], []⟩ false false 0 []).dbLimit = some (-5) ∧
    ¬ (1 : Int) ≤ -5 ∧
    effPage (some "-3") = -3 :=
  ⟨rfl, by decide, rfl⟩

/-- C5 as amended: page defaults to 1 when the parameter is absent or
parses to NaN or 0, other parsed values (including negatives) pass
through; limit defaults to 10 and is capped above at 100 but has no
lower clamp; the store's sort column always comes from the fixed
whitelist, with unrecognized sortBy values silently replaced by
created_at; sortOrder is descending exactly for "desc"; and the store
query uses offset = (page − 1) × limit. -/
theorem c5_effective_params (q : ProductsQuery) (a d : String) (cT : Bool)
    (count : Int) (prods : List JVal) (s : String) (o : Option String) :
    effLimit q.limit ≤ 100 ∧
    effLimit none = 10 ∧
    effPage none = 1 ∧
    (parseIntJs s = none → effPage (some s) = 1 ∧ effLimit (some s) = 10) ∧
    sortColumnOf s ∈ [SortColumn.id, .name, .price, .category, .createdAt] ∧
    (s ≠ "id" → s ≠ "name" → s ≠ "price" → s ≠ "category" → s ≠ "createdAt" →
      sortColumnOf s = .createdAt) ∧
    (isDescOrder o = true ↔ o = some "desc") ∧
    (getProducts q a d ⟨[], []⟩ false cT count prods).dbOffset
      = some ((effPage q.page - 1) * effLimit q.limit) ∧
    (getProducts q a d ⟨[], []⟩ false cT count prods).dbLimit
      = some (effLimit q.limit) ∧
    (getProducts q a d ⟨[], []⟩ false cT count prods).dbSortColumn
      = some (sortColumnOf (effSortBy q.sortBy)) := by
  refine ⟨min_le_right _ _, rfl, rfl, ?_, ?_, ?_, ?_, ?_, ?_, ?_⟩
  · intro h
    constructor
    · simp [effPage, parseIntOptStr, h]
    · simp [effLimit, parseIntOptStr, h]
  · unfold sortColumnOf
    cases h : validSortColumns.find? (fun p => p.1 = s) with
    | none => simp
    | some p =>
        have hm := List.mem_of_find?_eq_some h
        simp [validSortColumns] at hm
        rcases hm with rfl | rfl | rfl | rfl | rfl <;> simp
  · intro h1 h2 h3 h4 h5
    unfold sortColumnOf validSortColumns
    simp [List.find?, Ne.symm h1, Ne.symm h2, Ne.symm h3, Ne.symm h4, Ne.symm h5]
  · simp [isDescOrder]
  · unfold getProducts
    simp [kvGet, lookupAssoc]
  · unfold getProducts
    simp [kvGet, lookupAssoc]
  · unfold getProducts
    simp [kvGet, lookupAssoc]

/-- Witness for c5_effective_params: page 2, limit 20, sortBy "bogus"
descending — the store sees limit 20, offset 20 and the created_at
column. -/
theorem c5_effective_params_w :
    (parseIntJs "zzz" = none → effPage (some "zzz") = 1 ∧ effLimit (some "zzz") = 10) ∧
    sortColumnOf "bogus" ∈ [SortColumn.id, .name, .price, .category, .createdAt] ∧
    (getProducts ⟨some "2", some "20", some "bogus", some "desc", none⟩ ascSrc
        "descFnSrc" ⟨[], []⟩ false false 45 []).dbOffset
      = some ((effPage (some "2") - 1) * effLimit (some "20")) :=
  ⟨(c5_effective_params ⟨some "2", some "20", some "bogus", some "desc", none⟩
      ascSrc "descFnSrc" false 45 [] "zzz" (some "desc")).2.2.2.1,
   (c5_effective_params ⟨some "2", some "20", some "bogus", some "desc", none⟩
      ascSrc "descFnSrc" false 45 [] "bogus" (some "desc")).2.2.2.2.1,
   (c5_effective_params ⟨some "2", some "20", some "bogus", some "desc", none⟩
      ascSrc "descFnSrc" false 45 [] "bogus" (some "desc")).2.2.2.2.2.2.2.1⟩

end Ecom

namespace Ecom

/-- A string with no colon character (the separator of the listing
cache key). -/
abbrev colonFree (s : String) : Prop := ':' ∉ s.data

theorem isDigitChar_digitChar (n : Nat) (h : n < 10) :
    isDigitChar (digitChar n) = true := by
  interval_cases n <;> decide

theorem digitChar_toNat (n : Nat) (h : n < 10) : (digitChar n).toNat = 48 + n := by
  interval_cases n <;> decide

theorem mem_natToChars_isDigit :
    ∀ (fuel n : Nat), ∀ c ∈ natToChars fuel n, isDigitChar c = true := by
  intro fuel
  induction fuel with
  | zero => intro n c hc; simp [natToChars] at hc
  | succ f ih =>
      intro n c hc
      rw [natToChars] at hc
      by_cases h : n < 10
      · rw [if_pos h] at hc
        simp at hc
        subst hc
        exact isDigitChar_digitChar n h
      · rw [if_neg h] at hc
        rcases List.mem_append.mp hc with h1 | h1
        · exact ih _ c h1
        · simp at h1
          subst h1
          exact isDigitChar_digitChar _ (Nat.mod_lt _ (by norm_num))

theorem natToChars_ne_nil (fuel n : Nat) (h : 0 < fuel) :
    natToChars fuel n ≠ [] := by
  cases fuel with
  | zero => omega
  | succ f =>
      rw [natToChars]
      by_cases h10 : n < 10
      · simp [h10]
      · simp [h10]

theorem natOfDigits_append_singleton (l : List Char) (c : Char) :
    natOfDigits (l ++ [c]) = natOfDigits l * 10 + (c.toNat - 48) := by
  simp [natOfDigits, List.foldl_append]

theorem natOfDigits_natToChars :
    ∀ (fuel n : Nat), n < fuel → natOfDigits (natToChars fuel n) = n := by
  intro fuel
  induction fuel with
  | zero => omega
  | succ f ih =>
      intro n hn
      rw [natToChars]
      by_cases h : n < 10
      · rw [if_pos h]
        simp [natOfDigits, digitChar_toNat n h]
      · rw [if_neg h]
        rw [natOfDigits_append_singleton]
        have hdiv : n / 10 < f := by
          have h1 : n / 10 < n := Nat.div_lt_self (by omega) (by norm_num)
          omega
        rw [ih _ hdiv, digitChar_toNat _ (Nat.mod_lt _ (by norm_num))]
        omega

theorem natToStr_inj {a b : Nat} (h : natToStr a = natToStr b) : a = b := by
  have hd : natToChars (a + 1) a = natToChars (b + 1) b := congrArg String.data h
  have ha := natOfDigits_natToChars (a + 1) a (by omega)
  have hb := natOfDigits_natToChars (b + 1) b (by omega)
  rw [← ha, ← hb, hd]

theorem not_mem_natToChars (fuel n : Nat) (c : Char)
    (hc : isDigitChar c = false) : c ∉ natToChars fuel n := by
  intro hmem
  have := mem_natToChars_isDigit fuel n c hmem
  rw [hc] at this
  exact Bool.false_ne_true this

theorem colonFree_natToStr (n : Nat) : colonFree (natToStr n) :=
  not_mem_natToChars (n + 1) n ':' (by decide)

theorem intToStr_data_neg (i : Int) (h : i < 0) :
    (intToStr i).data = '-' :: natToChars (i.natAbs + 1) i.natAbs := by
  rw [intToStr, if_pos h]
  rfl

theorem intToStr_data_nonneg (i : Int) (h : ¬ i < 0) :
    (intToStr i).data = natToChars (i.natAbs + 1) i.natAbs := by
  rw [intToStr, if_neg h]
  rfl

theorem colonFree_intToStr (i : Int) : colonFree (intToStr i) := by
  unfold colonFree
  by_cases h : i < 0
  · rw [intToStr_data_neg i h]
    intro hmem
    rcases List.mem_cons.mp hmem with h1 | h1
    · exact absurd h1 (by decide)
    · exact not_mem_natToChars _ _ ':' (by decide) h1
  · rw [intToStr_data_nonneg i h]
    exact not_mem_natToChars _ _ ':' (by decide)

theorem intToStr_inj {i j : Int} (h : intToStr i = intToStr j) : i = j := by
  have hd := congrArg String.data h
  by_cases hi : i < 0 <;> by_cases hj : j < 0
  · rw [intToStr_data_neg i hi, intToStr_data_neg j hj] at hd
    have htl : natToChars (i.natAbs + 1) i.natAbs = natToChars (j.natAbs + 1) j.natAbs :=
      List.tail_eq_of_cons_eq hd
    have : i.natAbs = j.natAbs := by
      have ha := natOfDigits_natToChars (i.natAbs + 1) i.natAbs (by omega)
      have hb := natOfDigits_natToChars (j.natAbs + 1) j.natAbs (by omega)
      rw [← ha, ← hb, htl]
    omega
  · rw [intToStr_data_neg i hi, intToStr_data_nonneg j hj] at hd
    exfalso
    have hmem : '-' ∈ natToChars (j.natAbs + 1) j.natAbs := by
      rw [← hd]; exact List.mem_cons_self _ _
    exact not_mem_natToChars _ _ '-' (by decide) hmem
  · rw [intToStr_data_nonneg i hi, intToStr_data_neg j hj] at hd
    exfalso
    have hmem : '-' ∈ natToChars (i.natAbs + 1) i.natAbs := by
      rw [hd]; exact List.mem_cons_self _ _
    exact not_mem_natToChars _ _ '-' (by decide) hmem
  · rw [intToStr_data_nonneg i hi, intToStr_data_nonneg j hj] at hd
    have : i.natAbs = j.natAbs := by
      have ha := natOfDigits_natToChars (i.natAbs + 1) i.natAbs (by omega)
      have hb := natOfDigits_natToChars (j.natAbs + 1) j.natAbs (by omega)
      rw [← ha, ← hb, hd]
    omega

end Ecom

namespace Ecom

theorem append_colon_inj :
    ∀ (l1 : List Char) (r1 : List Char) (l2 : List Char) (r2 : List Char),
      ':' ∉ l1 → ':' ∉ l2 → l1 ++ ':' :: r1 = l2 ++ ':' :: r2 →
      l1 = l2 ∧ r1 = r2 := by
  intro l1
  induction l1 with
  | nil =>
      intro r1 l2 r2 _ h2 h
      cases l2 with
      | nil => simpa using h
      | cons hd tl =>
          exfalso
          have : ':' = hd := (List.cons_eq_cons.mp h).1
          exact h2 (this ▸ List.mem_cons_self hd tl)
  | cons hd tl ih =>
      intro r1 l2 r2 h1 h2 h
      cases l2 with
      | nil =>
          exfalso
          have : hd = ':' := (List.cons_eq_cons.mp h).1
          exact h1 (this ▸ List.mem_cons_self hd tl)
      | cons hd2 tl2 =>
          have hh := List.cons_eq_cons.mp h
          have htl := ih r1 tl2 r2 (fun hx => h1 (List.mem_cons_of_mem hd hx))
            (fun hx => h2 (List.mem_cons_of_mem hd2 hx)) hh.2
          exact ⟨by rw [hh.1, htl.1], htl.2⟩

theorem no_colon_no_split (l1 r1 l2 : List Char) (h2 : ':' ∉ l2)
    (h : l1 ++ ':' :: r1 = l2) : False :=
  h2 (h ▸ List.mem_append.mpr (Or.inr (List.mem_cons_self ':' r1)))

/-- The character-level shape of a listing cache key. -/
def keyTail : Option String → List Char
  | some c => ':' :: ("category:".data ++ c.data)
  | none => []

theorem productsCacheKey_data (p l : Int) (s o : String) (c : Option String) :
    (productsCacheKey p l s o c).data =
      "products:page:".data ++ ((intToStr p).data ++ ':' ::
        ("limit:".data ++ ((intToStr l).data ++ ':' ::
          ("sortBy:".data ++ (s.data ++ ':' ::
            ("sortOrder:".data ++ (o.data ++ keyTail c))))))) := by
  have e1 : (":limit:").data = ':' :: ("limit:").data := rfl
  have e2 : (":sortBy:").data = ':' :: ("sortBy:").data := rfl
  have e3 : (":sortOrder:").data = ':' :: ("sortOrder:").data := rfl
  cases c with
  | none =>
      simp [productsCacheKey, keyTail, String.data_append, e1, e2, e3]
  | some x =>
      have e4 : (":category:" ++ x).data = ':' :: ("category:".data ++ x.data) := by
        simp [String.data_append]
      simp [productsCacheKey, keyTail, String.data_append, e1, e2, e3, e4]

/-- C9 as amended, injectivity half: the key template is injective on
(page, limit, sortBy, sortOrder-string, category) as long as the
interpolated sortBy/sortOrder/category strings contain no ':'
separator character. (With colon-carrying values distinct parameter
combinations can collide — see the counterexample.) -/
theorem productsCacheKey_inj (p1 l1 : Int) (s1 o1 : String) (c1 : Option String)
    (p2 l2 : Int) (s2 o2 : String) (c2 : Option String)
    (hs1 : colonFree s1) (ho1 : colonFree o1)
    (hc1 : ∀ x, c1 = some x → colonFree x)
    (hs2 : colonFree s2) (ho2 : colonFree o2)
    (hc2 : ∀ x, c2 = some x → colonFree x)
    (h : productsCacheKey p1 l1 s1 o1 c1 = productsCacheKey p2 l2 s2 o2 c2) :
    p1 = p2 ∧ l1 = l2 ∧ s1 = s2 ∧ o1 = o2 ∧ c1 = c2 := by
  have hd := congrArg String.data h
  rw [productsCacheKey_data, productsCacheKey_data] at hd
  have hd1 := List.append_cancel_left hd
  have hp := append_colon_inj _ _ _ _ (colonFree_intToStr p1) (colonFree_intToStr p2) hd1
  have hpe : p1 = p2 := intToStr_inj (String.ext hp.1)
  have hd2 := List.append_cancel_left hp.2
  have hl := append_colon_inj _ _ _ _ (colonFree_intToStr l1) (colonFree_intToStr l2) hd2
  have hle : l1 = l2 := intToStr_inj (String.ext hl.1)
  have hd3 := List.append_cancel_left hl.2
  have hs := append_colon_inj _ _ _ _ hs1 hs2 hd3
  have hse : s1 = s2 := String.ext hs.1
  have hd4 := List.append_cancel_left hs.2
  cases c1 with
  | none =>
      cases c2 with
      | none =>
          refine ⟨hpe, hle, hse, ?_, rfl⟩
          simp [keyTail] at hd4
          exact String.ext hd4
      | some x2 =>
          exfalso
          simp only [keyTail] at hd4
          rw [List.append_nil] at hd4
          exact no_colon_no_split o2.data _ o1.data ho1 hd4.symm
  | some x1 =>
      cases c2 with
      | none =>
          exfalso
          simp only [keyTail] at hd4
          rw [List.append_nil] at hd4
          exact no_colon_no_split o1.data _ o2.data ho2 hd4
      | some x2 =>
          simp only [keyTail] at hd4
          have ho := append_colon_inj _ _ _ _ ho1 ho2 hd4
          have hoe : o1 = o2 := String.ext ho.1
          have hx := List.append_cancel_left ho.2
          exact ⟨hpe, hle, hse, hoe, by rw [String.ext hx]⟩

end Ecom

namespace Ecom

/-- C9 as amended: the key construction is a pure function of the
effective parameters (determinism), every constructed key extends the
`products:` wildcard stem used for bulk invalidation, and the
construction is injective PROVIDED the interpolated sortBy, sortOrder
and category strings contain no ':' — with colon-carrying values,
distinct parameter combinations can collide (see the counterexample). -/
theorem c9_key_scheme :
    (∀ (p l : Int) (s o : String) (c : Option String),
      ∃ rest, productsCacheKey p l s o c = "products:" ++ rest) ∧
    (∀ (p1 l1 : Int) (s1 o1 : String) (c1 : Option String)
       (p2 l2 : Int) (s2 o2 : String) (c2 : Option String),
      colonFree s1 → colonFree o1 → (∀ x, c1 = some x → colonFree x) →
      colonFree s2 → colonFree o2 → (∀ x, c2 = some x → colonFree x) →
      productsCacheKey p1 l1 s1 o1 c1 = productsCacheKey p2 l2 s2 o2 c2 →
      p1 = p2 ∧ l1 = l2 ∧ s1 = s2 ∧ o1 = o2 ∧ c1 = c2) := by
  constructor
  · intro p l s o c
    refine ⟨"page:" ++ intToStr p ++ ":limit:" ++ intToStr l ++ ":sortBy:" ++ s ++
      ":sortOrder:" ++ o ++
      (match c with
       | some x => ":category:" ++ x
       | none => ""), ?_⟩
    cases c <;> (apply String.ext; simp [productsCacheKey, String.data_append])
  · exact productsCacheKey_inj

/-- Witness for c9_key_scheme: colon-free parameters; identical
parameters give the identical key and the injectivity direction
recovers the parameter equalities. -/
theorem c9_key_scheme_w :
    colonFree "name" ∧ colonFree "ascFnSrc" ∧
    (∃ rest, productsCacheKey 1 10 "name" "ascFnSrc" (some "tools")
      = "products:" ++ rest) ∧
    ((1 : Int) = 1 ∧ (10 : Int) = 10 ∧ "name" = "name" ∧
     "ascFnSrc" = "ascFnSrc" ∧ (some "tools" : Option String) = some "tools") :=
  ⟨by decide, by decide,
   c9_key_scheme.1 1 10 "name" "ascFnSrc" (some "tools"),
   c9_key_scheme.2 1 10 "name" "ascFnSrc" (some "tools")
     1 10 "name" "ascFnSrc" (some "tools")
     (by decide) (by decide) (fun x hx => by cases hx; decide)
     (by decide) (by decide) (fun x hx => by cases hx; decide) rfl⟩

/-- The colliding listing requests of the C9 counterexample. -/
def c9QueryA : ProductsQuery :=
  ⟨some "1", some "10", some "name", none, some "z:sortOrder:ascFnSrc"⟩

/-- The second request: different sortBy, no category. -/
def c9QueryB : ProductsQuery :=
  ⟨some "1", some "10", some "name:sortOrder:ascFnSrc:category:z", none, none⟩

/-- C9 counterexample. The claim says any two requests differing in at
least one effective parameter produce different keys. False: because
the raw sortBy/category values are spliced between ':'-separators
unescaped, the two requests below — same page/limit/sortOrder but
different sortBy and category — build the IDENTICAL key; consequently
the second request is served the first request's cached listing (its
run performs no store access). -/
theorem c9_colliding_keys :
    productsCacheKey 1 10 "name" "ascFnSrc" (some "z:sortOrder:ascFnSrc")
      = productsCacheKey 1 10 "name:sortOrder:ascFnSrc:category:z" "ascFnSrc" none ∧
    "name" ≠ "name:sortOrder:ascFnSrc:category:z" ∧
    (some "z:sortOrder:ascFnSrc" : Option String) ≠ none ∧
    (getProducts c9QueryB "ascFnSrc" "descFnSrc"
        (getProducts c9QueryA "ascFnSrc" "descFnSrc" ⟨[], []⟩ false false 5
          [.jobj [("id", .jnum (.num 1))]]).cache
        false false 5 []).dbAccessed = false :=
  ⟨rfl, by decide, by decide, rfl⟩

end Ecom
